import Mathlib

/-!
Shallow embedding of the salestracker/olms order-tracking application
(SQLite-backed order repository, user repository, JWT token codec,
tRPC authorization pipeline, and the ERP integration facade), together
with theorems settling the specification claims about them.

Conventions of the embedding:
* machine state (the SQLite tables `users`, `orders`, `order_timeline`)
  is explicit: repository methods take and return the table contents;
* a `db.transaction` is modelled as a single state transition (the
  transaction's writes become visible as one new state);
* timestamps (`new Date().toISOString()`, `Date.now()/1000`) are `Nat`
  parameters passed explicitly;
* JavaScript string falsiness (`!s` true for `undefined` and `""`) is
  modelled with `Option String` plus an explicit emptiness check;
* fallible procedures return `Except Err _`; a thrown `TRPCError` or
  plain `Error` is an `Err` value carrying the code and message used at
  the source throw site.
-/

namespace OLMS

/-- The seven order statuses of the `orderStatusSchema` Zod enum in
`src/modules/orders.ts` / the `Order['status']` union in
`src/database/orderRepository.ts`. -/
inductive OrderStatus
  | pending
  | processing
  | manufacturing
  | quality_check
  | shipped
  | delivered
  | cancelled
deriving DecidableEq, Repr

/-- String spelling of a status, as it appears in the database rows. -/
def OrderStatus.toName : OrderStatus → String
  | .pending => "pending"
  | .processing => "processing"
  | .manufacturing => "manufacturing"
  | .quality_check => "quality_check"
  | .shipped => "shipped"
  | .delivered => "delivered"
  | .cancelled => "cancelled"

/-- A row of the `orders` table (interface `Order` in
`src/database/orderRepository.ts`).  `amount REAL` is modelled as `Rat`;
`created_at`/`updated_at` TEXT timestamps are modelled as `Nat` instants. -/
structure Order where
  id : String
  user_id : String
  status : OrderStatus
  customer_name : String
  amount : Rat
  details : Option String
  suggestion : Option String
  created_at : Nat
  updated_at : Nat
deriving DecidableEq, Repr

/-- A row of the `order_timeline` table (interface `TimelineEvent`).
The AUTOINCREMENT surrogate `id` is left out: rows are identified by
their position in the append-only list. -/
structure TimelineEvent where
  order_id : String
  status : OrderStatus
  description : Option String
  created_at : Nat
deriving DecidableEq, Repr

/-- The order-related portion of the SQLite database: the `orders` table
and the append-only `order_timeline` table. -/
structure OrderDb where
  orders : List Order
  timeline : List TimelineEvent
deriving DecidableEq, Repr

namespace OrderRepository

/-- `OrderRepository.getAll`: `SELECT * FROM orders`. -/
def getAll (db : OrderDb) : List Order :=
  db.orders

/-- `OrderRepository.getByUserId`: `SELECT * FROM orders WHERE user_id = ?`. -/
def getByUserId (db : OrderDb) (userId : String) : List Order :=
  db.orders.filter (fun o => o.user_id = userId)

/-- `OrderRepository.getByStatus`: `SELECT * FROM orders WHERE status = ?`. -/
def getByStatus (db : OrderDb) (status : OrderStatus) : List Order :=
  db.orders.filter (fun o => o.status = status)

/-- `OrderRepository.getById`: `SELECT * FROM orders WHERE id = ?` with
`.get` (first matching row, `null` when none).  `id` is the PRIMARY KEY,
so at most one row matches in a well-formed database. -/
def getById (db : OrderDb) (id : String) : Option Order :=
  db.orders.find? (fun o => o.id = id)

/-- `OrderRepository.getOrderTimeline`:
`SELECT * FROM order_timeline WHERE order_id = ? ORDER BY created_at ASC`.
The rows selected for the order, sorted ascending by `created_at`
(insertion order preserved among equal timestamps, as a stable sort). -/
def getOrderTimeline (db : OrderDb) (orderId : String) : List TimelineEvent :=
  (db.timeline.filter (fun e => e.order_id = orderId)).mergeSort
    (fun a b => a.created_at ≤ b.created_at)

/-- JavaScript `x || d` on an optional string: the default is taken when
the value is absent **or** the empty string (falsy). -/
def jsOrElse (x : Option String) (d : String) : String :=
  match x with
  | none => d
  | some s => if s = "" then d else s

/-- `OrderRepository.create`: inside one transaction, insert the order
row and the initial timeline entry.  Returns the new database state and
the constructed `Order` value the method returns. -/
def create (db : OrderDb) (id : String) (user_id : String)
    (status : OrderStatus) (customer_name : String) (amount : Rat)
    (details suggestion : Option String) (now : Nat) : OrderDb × Order :=
  let ord : Order :=
    { id := id, user_id := user_id, status := status,
      customer_name := customer_name, amount := amount,
      details := details, suggestion := suggestion,
      created_at := now, updated_at := now }
  let ev : TimelineEvent :=
    { order_id := id, status := status,
      description := some ("Order created with status: " ++ status.toName),
      created_at := now }
  ({ orders := db.orders ++ [ord], timeline := db.timeline ++ [ev] }, ord)

/-- `OrderRepository.updateStatus`: look the order up; if absent return
`null` (no write happens).  Otherwise, inside one transaction, set the
row's `status`/`updated_at` and insert one timeline entry whose status
is the new status.  Returns the new database state paired with the
updated `Order` value the method returns. -/
def updateStatus (db : OrderDb) (orderId : String) (newStatus : OrderStatus)
    (description : Option String) (now : Nat) : Option (OrderDb × Order) :=
  match getById db orderId with
  | none => none
  | some order =>
    let statusDescription :=
      jsOrElse description ("Status changed to " ++ newStatus.toName)
    let db' : OrderDb :=
      { orders := db.orders.map (fun o =>
          if o.id = orderId then { o with status := newStatus, updated_at := now }
          else o),
        timeline := db.timeline ++
          [{ order_id := orderId, status := newStatus,
             description := some statusDescription, created_at := now }] }
    some (db', { order with status := newStatus, updated_at := now })

/-- `OrderRepository.addSuggestion`: overwrite the `suggestion` column of
the order; `null` when the order does not exist. -/
def addSuggestion (db : OrderDb) (orderId : String) (suggestion : String)
    (now : Nat) : Option (OrderDb × Order) :=
  match getById db orderId with
  | none => none
  | some order =>
    let db' : OrderDb :=
      { orders := db.orders.map (fun o =>
          if o.id = orderId then
            { o with suggestion := some suggestion, updated_at := now }
          else o),
        timeline := db.timeline }
    some (db', { order with suggestion := some suggestion, updated_at := now })

/-- `OrderRepository.delete`: inside one transaction, delete the
timeline events of the order, then the order row itself. -/
def deleteOrder (db : OrderDb) (orderId : String) : OrderDb :=
  { orders := db.orders.filter (fun o => ¬ o.id = orderId),
    timeline := db.timeline.filter (fun e => ¬ e.order_id = orderId) }

/-- One slice of the `pieChartData` array built by `getAnalytics`. -/
structure PieSlice where
  status : OrderStatus
  count : Nat
  percentage : Rat
deriving DecidableEq, Repr

/-- The record returned by `OrderRepository.getAnalytics`.  `byStatus`
(the `Record<string, number>` built by `reduce`) is kept as the
association list it is folded from. -/
structure Analytics where
  totalOrders : Nat
  byStatus : List (OrderStatus × Nat)
  pieChartData : List PieSlice
deriving DecidableEq, Repr

/-- `SELECT status, COUNT(*) FROM orders GROUP BY status`: one row per
distinct status value present, with the number of orders holding it. -/
def statusCounts (orders : List Order) : List (OrderStatus × Nat) :=
  (orders.map (fun o => o.status)).dedup.map
    (fun s => (s, (orders.filter (fun o => o.status = s)).length))

/-- `OrderRepository.getAnalytics`: group-by counts, total order count,
and the pie-chart slices, each slice's percentage being
`count / totalOrders * 100` guarded by `totalOrders > 0` (0 otherwise).
JavaScript number division is modelled as exact `Rat` division. -/
def getAnalytics (db : OrderDb) : Analytics :=
  let counts := statusCounts db.orders
  let totalOrders := (getAll db).length
  { totalOrders := totalOrders,
    byStatus := counts,
    pieChartData := counts.map (fun sc =>
      { status := sc.1, count := sc.2,
        percentage :=
          if totalOrders > 0 then (sc.2 : Rat) / (totalOrders : Rat) * 100
          else 0 }) }

end OrderRepository

/-! ## Users, bcrypt and the user repository (`src/database/userRepository.ts`) -/

/-- The three roles of the `role` union type. -/
inductive Role
  | admin
  | customer
  | factory
deriving DecidableEq, Repr

/-- String spelling of a role as stored in the `users.role` column. -/
def Role.toName : Role → String
  | .admin => "admin"
  | .customer => "customer"
  | .factory => "factory"

/-- A row of the `users` table (interface `User` in
`src/database/userRepository.ts`); `password` holds the bcrypt hash. -/
structure User where
  id : String
  name : String
  email : String
  password : String
  role : Role
  created_at : Nat
  updated_at : Nat
deriving DecidableEq, Repr

/-- The `AuthUser` shape (`src/core/trpc.ts`): what `authenticate`
returns and what an authenticated request context carries. -/
structure AuthUser where
  id : String
  name : String
  email : String
  role : Role
deriving DecidableEq, Repr

/-- Modelled from the spec: the `bcrypt` library is external to the
repository.  Its salted hash is modelled as a deterministic injective
tagging of the password, which preserves the only property the claims
use: a stored hash matches exactly the password it was derived from. -/
def bcryptHash (password : String) : String :=
  "bcrypt$" ++ password

/-- Modelled from the spec: `bcrypt.compare(password, hash)` succeeds
exactly when `hash` was produced from `password`. -/
def bcryptCompare (password hash : String) : Bool :=
  hash = bcryptHash password

namespace UserRepository

/-- `UserRepository.getById`: `SELECT ... FROM users WHERE id = ?`. -/
def getById (users : List User) (id : String) : Option User :=
  users.find? (fun u => u.id = id)

/-- `UserRepository.getByEmail`: `SELECT ... FROM users WHERE email = ?`
(`email` is UNIQUE, so at most one row matches). -/
def getByEmail (users : List User) (email : String) : Option User :=
  users.find? (fun u => u.email = email)

/-- `UserRepository.updatePassword`: hash the new password and
`UPDATE users SET password = ?, updated_at = ? WHERE id = ?`.  Returns
the new table state and whether any row changed (`result.changes > 0`). -/
def updatePassword (users : List User) (userId newPassword : String)
    (now : Nat) : List User × Bool :=
  (users.map (fun u =>
     if u.id = userId then
       { u with password := bcryptHash newPassword, updated_at := now }
     else u),
   users.any (fun u => u.id = userId))

/-- The projection `{id, name, email, role}` that `authenticate` builds
from a matched user row. -/
def toAuthUser (u : User) : AuthUser :=
  { id := u.id, name := u.name, email := u.email, role := u.role }

/-- `UserRepository.authenticate`: look the user up by email (absent →
`null`), then — before any bcrypt comparison — accept the three
hard-coded test credentials `admin@zenith.com`/`admin123`,
`factory@zenith.com`/`factory123`, `customer@zenith.com`/`customer123`
by direct string comparison; otherwise fall through to
`bcrypt.compare(password, user.password)`. -/
def authenticate (users : List User) (email password : String) :
    Option AuthUser :=
  match getByEmail users email with
  | none => none
  | some user =>
    if email = "admin@zenith.com" ∧ password = "admin123" then
      some (toAuthUser user)
    else if email = "factory@zenith.com" ∧ password = "factory123" then
      some (toAuthUser user)
    else if email = "customer@zenith.com" ∧ password = "customer123" then
      some (toAuthUser user)
    else if bcryptCompare password user.password then
      some (toAuthUser user)
    else
      none

end UserRepository

/-! ## JWT token codec (`src/auth/jwt.ts`)

The `jsonwebtoken` library is external to the repository; its
sign/verify pair is modelled from the spec (§4.1: `verify` "checks
signature validity and expiry"; signing is a pure function of identity,
current time and the secret key). -/

/-- The decoded claims object of a structurally valid JWT.  Each claimed
field may be absent (`none`); the code's `!decoded.id` falsiness test
also rejects a present-but-empty string. -/
structure JwtClaims where
  id : Option String
  email : Option String
  role : Option String
  exp : Option Nat
deriving DecidableEq, Repr

/-- A token string as the verifier sees it: either not a decodable JWT
at all (this includes the empty string), or a claims object together
with the signature it carries. -/
inductive JwtToken
  | malformed (raw : String)
  | signed (claims : JwtClaims) (sig : String)
deriving DecidableEq, Repr

/-- Deterministic encoding of a claims object, used to model signing. -/
def encodeClaims (c : JwtClaims) : String :=
  let part : Option String → String
    | none => "-"
    | some s => "+" ++ s
  part c.id ++ "|" ++ part c.email ++ "|" ++ part c.role ++ "|" ++
    (match c.exp with
     | none => "-"
     | some e => "+" ++ toString e)

/-- Modelled from the spec: the HMAC signature over the payload with
the secret key, as a deterministic function of both. -/
def mkSig (secret : String) (c : JwtClaims) : String :=
  "sig(" ++ secret ++ ";" ++ encodeClaims c ++ ")"

/-- Modelled from the spec: the `jwt.verify(token, secret)` library
call.  It throws (here: returns `.error`) on a malformed token, a
signature that does not match the secret, or an expired token
(`now > exp`); otherwise it returns the decoded claims. -/
def jwtVerifyLib (secret : String) (now : Nat) :
    JwtToken → Except String JwtClaims
  | .malformed _ => .error "jwt malformed"
  | .signed claims sig =>
    if sig ≠ mkSig secret claims then .error "invalid signature"
    else
      match claims.exp with
      | some e => if now > e then .error "jwt expired" else .ok claims
      | none => .ok claims

/-- The `{id, email, role}` payload `verifyToken` returns on success
(roles travel as plain strings at this boundary). -/
structure VerifiedPayload where
  id : String
  email : String
  role : String
deriving DecidableEq, Repr

/-- `TOKEN_EXPIRY = '24h'`, in seconds. -/
def TOKEN_EXPIRY_SECONDS : Nat := 24 * 60 * 60

/-- `generateToken` (`src/auth/jwt.ts`): `jwt.sign({id, email, role},
JWT_SECRET, {expiresIn: '24h'})` — a token over exactly those three
claims with `exp` fixed 24 hours after the signing instant. -/
def generateToken (secret : String) (now : Nat) (user : AuthUser) : JwtToken :=
  let claims : JwtClaims :=
    { id := some user.id, email := some user.email,
      role := some user.role.toName, exp := some (now + TOKEN_EXPIRY_SECONDS) }
  .signed claims (mkSig secret claims)

/-- JavaScript truthiness of an optional string field. -/
def jsTruthy (s : Option String) : Bool :=
  match s with
  | none => false
  | some v => v ≠ ""

/-- `verifyToken` (`src/auth/jwt.ts`): wrap `jwt.verify` in try/catch
(`.error` ↦ `null`), then reject a payload with a falsy `id`, `email`
or `role`, then re-check expiry (`decoded.exp && decoded.exp < now` ↦
`null`); on success return the decoded `{id, email, role}`.  Total at
this boundary: every token value maps to `some` or `none`. -/
def verifyToken (secret : String) (now : Nat) (token : JwtToken) :
    Option VerifiedPayload :=
  match jwtVerifyLib secret now token with
  | .error _ => none
  | .ok decoded =>
    if ¬ jsTruthy decoded.id ∨ ¬ jsTruthy decoded.email ∨
        ¬ jsTruthy decoded.role then
      none
    else if (match decoded.exp with
             | some e => decide (e < now)
             | none => false) then
      none
    else
      some { id := decoded.id.getD "", email := decoded.email.getD "",
             role := decoded.role.getD "" }

/-- JavaScript `s.startsWith(pre)`, over the character lists. -/
def jsStartsWith (s pre : String) : Bool :=
  pre.data.isPrefixOf s.data

/-- Split a character list at every occurrence of the separator
(JavaScript `String.prototype.split` semantics: `n` separators yield
`n + 1` pieces, empty pieces included). -/
def splitOnChar (c : Char) : List Char → List (List Char)
  | [] => [[]]
  | x :: xs =>
    if x = c then [] :: splitOnChar c xs
    else
      match splitOnChar c xs with
      | r :: rs => (x :: r) :: rs
      | [] => [[x]]

/-- JavaScript `h.split(' ')`. -/
def jsSplitSpace (h : String) : List String :=
  (splitOnChar ' ' h.data).map String.mk

/-! ## Errors thrown across the RPC boundary -/

/-- The `TRPCError` codes used at throw sites in this codebase. -/
inductive TrpcCode
  | UNAUTHORIZED
  | FORBIDDEN
  | BAD_REQUEST
  | NOT_FOUND
  | INTERNAL_SERVER_ERROR
deriving DecidableEq, Repr

/-- An error thrown by a procedure: either a `TRPCError` with its code
and message, or a plain `new Error(message)`. -/
inductive ThrownError
  | trpc (code : TrpcCode) (message : String)
  | js (message : String)
deriving DecidableEq, Repr

/-- Modelled from the spec: the §7 error taxonomy ("taxonomy, not type
names").  Classifies each throw site of the embedded procedures into
the spec's kinds: `Unauthenticated` for missing/invalid-token
rejections, `InvalidCredentials` for a failed login match,
`MissingCredentials` for a login without both fields, `Forbidden` for
role or ownership rejections (including the plain `Access denied`
errors thrown by the orders module), `NotFound` for missing records,
`UpstreamFailure` for ERP adapter failures. -/
inductive ErrorKind
  | missingCredentials
  | invalidCredentials
  | unauthenticated
  | forbidden
  | notFound
  | upstreamFailure
  | internal
deriving DecidableEq, Repr

/-- The spec-taxonomy kind of a thrown error (see `ErrorKind`). -/
def ThrownError.kind : ThrownError → ErrorKind
  | .trpc .UNAUTHORIZED m =>
    if m = "Invalid credentials" then .invalidCredentials else .unauthenticated
  | .trpc .FORBIDDEN _ => .forbidden
  | .trpc .BAD_REQUEST m =>
    if m = "Email and password are required" then .missingCredentials
    else .internal
  | .trpc .NOT_FOUND _ => .notFound
  | .trpc .INTERNAL_SERVER_ERROR _ => .upstreamFailure
  | .js m =>
    if jsStartsWith m "Access denied" then .forbidden
    else if jsStartsWith m "Order not found" then .notFound
    else .internal

/-! ## Authorization pipeline (`src/core/trpc.ts`) -/

/-- The request `Context` shape: `{user?: AuthUser | null,
isAuthenticated: boolean}`. -/
structure Context where
  user : Option AuthUser
  isAuthenticated : Bool
deriving DecidableEq, Repr

/-- The `{isAuthenticated: false}` context every failed check returns. -/
def unauthenticatedContext : Context :=
  { user := none, isAuthenticated := false }

/-- `authHeader.split(' ')[1]`: the second space-separated piece of the
header (JS `undefined` when there is no second piece, falsy like the
empty string it is modelled as). -/
def extractBearerToken (h : String) : String :=
  (jsSplitSpace h).getD 1 ""

/-- `createAuthContext` (`src/core/trpc.ts`), parameterized over the
token-codec collaborator `verify` (`verifyToken` in `src/auth/jwt.ts`)
and the `users` table read by `userRepository.getById`.  The checks, in
source order: authorization header present (JS-truthy), literal
`Bearer ` scheme prefix, non-empty token piece after the split, `verify`
succeeds, and the decoded subject id resolves to a user row.  Every
failure returns the unauthenticated context; success carries the user's
id, name, email and role as read fresh from the store. -/
def createAuthContext (verify : String → Option VerifiedPayload)
    (users : List User) (authHeader : Option String) : Context :=
  match authHeader with
  | none => unauthenticatedContext
  | some h =>
    if h = "" then unauthenticatedContext
    else if ¬ jsStartsWith h "Bearer " then unauthenticatedContext
    else
      let token := extractBearerToken h
      if token = "" then unauthenticatedContext
      else
        match verify token with
        | none => unauthenticatedContext
        | some payload =>
          match UserRepository.getById users payload.id with
          | none => unauthenticatedContext
          | some user =>
            { user := some (UserRepository.toAuthUser user),
              isAuthenticated := true }

/-- The `isAuthorized` middleware: reject an unauthenticated context
with `UNAUTHORIZED`, otherwise pass through. -/
def isAuthorized (ctx : Context) : Except ThrownError Unit :=
  if ¬ ctx.isAuthenticated then
    .error (.trpc .UNAUTHORIZED "You must be logged in to access this resource")
  else
    .ok ()

/-- The `withAuth(roles)` middleware: `UNAUTHORIZED` when the context is
unauthenticated; `FORBIDDEN` when the allow-list is non-empty, the
context carries a user, and the user's role is not in the list;
otherwise pass through (in particular, an empty allow-list admits any
authenticated context). -/
def withAuth (roles : List Role) (ctx : Context) : Except ThrownError Unit :=
  if ¬ ctx.isAuthenticated then
    .error (.trpc .UNAUTHORIZED "Authentication required to access this resource")
  else
    match ctx.user with
    | some u =>
      if 0 < roles.length ∧ u.role ∉ roles then
        .error (.trpc .FORBIDDEN ("Access denied: Your role (" ++
          u.role.toName ++ ") does not have permission for this operation."))
      else
        .ok ()
    | none => .ok ()

/-! ## Orders router (`src/modules/orders.ts`) -/

/-- `ordersRouter.getByUserId` (a `protectedProcedure`): after the
`isAuthorized` middleware, a caller whose role is `customer` asking for
a `userId` other than their own is rejected; otherwise the orders with
that owner are returned. -/
def ordersGetByUserId (db : OrderDb) (ctx : Context) (userId : String) :
    Except ThrownError (List Order) :=
  match isAuthorized ctx with
  | .error e => .error e
  | .ok _ =>
    if (match ctx.user with
        | some u => u.role = Role.customer && u.id ≠ userId
        | none => false) then
      .error (.js "Access denied: Cannot view other customers\x27 orders")
    else
      .ok (OrderRepository.getByUserId db userId)

/-- `ordersRouter.updateStatus` (an `adminProcedure`): middleware chain
`isAuthorized` then `withAuth(['admin'])`, then the repository
`updateStatus`; a `null` repository result becomes a thrown error.  The
returned `OrderDb` is the database state after the call (unchanged on
every error path). -/
def ordersUpdateStatus (db : OrderDb) (ctx : Context) (id : String)
    (status : OrderStatus) (description : Option String) (now : Nat) :
    OrderDb × Except ThrownError Order :=
  match isAuthorized ctx with
  | .error e => (db, .error e)
  | .ok _ =>
    match withAuth [.admin] ctx with
    | .error e => (db, .error e)
    | .ok _ =>
      match OrderRepository.updateStatus db id status description now with
      | none => (db, .error (.js "Order not found or update failed"))
      | some (db', ord) => (db', .ok ord)

/-- `ordersRouter.getAnalytics` (an `adminProcedure`). -/
def ordersGetAnalytics (db : OrderDb) (ctx : Context) :
    Except ThrownError OrderRepository.Analytics :=
  match isAuthorized ctx with
  | .error e => .error e
  | .ok _ =>
    match withAuth [.admin] ctx with
    | .error e => .error e
    | .ok _ => .ok (OrderRepository.getAnalytics db)

/-! ## Users router (`src/modules/users.ts`) -/

/-- The login payload after JSON decoding: it may carry flat `email` /
`password` fields and/or a nested `json` object with the same two
fields (the router probes both shapes). -/
structure LoginPayload where
  email : Option String
  password : Option String
  json : Option (Option String × Option String)
deriving DecidableEq, Repr

/-- The credential-extraction probe of `usersRouter.login`: use the
flat fields when both are truthy, otherwise the nested `json` fields
when that object is present, otherwise nothing. -/
def extractCredentials (input : LoginPayload) :
    Option String × Option String :=
  if jsTruthy input.email ∧ jsTruthy input.password then
    (input.email, input.password)
  else
    match input.json with
    | some (e, p) => (e, p)
    | none => (none, none)

/-- `usersRouter.login` (a `publicProcedure`): extract credentials
(`BAD_REQUEST` when either is missing/empty), authenticate against the
user store (`UNAUTHORIZED` on no match), then return the matched user
together with a token minted by `generateToken` at the current time. -/
def login (users : List User) (secret : String) (now : Nat)
    (input : LoginPayload) : Except ThrownError (AuthUser × JwtToken) :=
  let creds := extractCredentials input
  if ¬ jsTruthy creds.1 ∨ ¬ jsTruthy creds.2 then
    .error (.trpc .BAD_REQUEST "Email and password are required")
  else
    match UserRepository.authenticate users (creds.1.getD "") (creds.2.getD "") with
    | none => .error (.trpc .UNAUTHORIZED "Invalid credentials")
    | some user => .ok (user, generateToken secret now user)

/-! ## ERP facade (`src/integrations/erp/index.ts`) -/

/-- The mock payload `SuntecAdapter.getMockData` returns for
`/api/factory/status`. -/
structure FactoryStatus where
  success : Bool
  status : String
  activeOrders : Nat
  completedToday : Nat
  staffOnline : Nat
deriving DecidableEq, Repr

/-- The concrete Suntec factory-status mock object. -/
def mockFactoryStatus : FactoryStatus :=
  { success := true, status := "operational", activeOrders := 12,
    completedToday := 8, staffOnline := 15 }

/-- One order of the LogicMate `/api/orders` mock payload. -/
structure LMOrder where
  id : String
  customerName : String
  status : String
  total : Rat
deriving DecidableEq, Repr

/-- The mock payload `LogicMateAdapter.getMockData` returns for
`/api/orders`. -/
structure LMOrdersPayload where
  success : Bool
  orders : List LMOrder
deriving DecidableEq, Repr

/-- The concrete LogicMate orders mock object. -/
def mockLogicMateOrders : LMOrdersPayload :=
  { success := true,
    orders := [
      { id := "LM001", customerName := "Akshay Kumar",
        status := "processing", total := 12000 },
      { id := "LM002", customerName := "Priyanka Chopra",
        status := "manufacturing", total := 25000 },
      { id := "LM003", customerName := "Akshay Kumar",
        status := "delivered", total := 8000 }] }

/-- `Promise.all` over two already-settled adapter calls: if either
call rejected, the combined promise rejects (with the left rejection
first); only when both fulfilled does it yield the pair. -/
def promiseAll2 {ε α β : Type} :
    Except ε α → Except ε β → Except ε (α × β)
  | .error e, _ => .error e
  | .ok _, .error e => .error e
  | .ok a, .ok b => .ok (a, b)

/-- The merged record `syncAllSystems` builds on success. -/
structure SyncMerged (α β : Type) where
  logicMate : α
  suntec : β
  syncTimestamp : Nat
deriving DecidableEq, Repr

/-- `ERPIntegrationService.syncAllSystems`: `Promise.all` over
`logicMate.syncOrders()` and `suntec.getFactoryStatus()` (each given
here by its settled outcome), merging the two payloads under the
per-adapter keys on joint success.  A rejection of either call rejects
the whole `Promise.all`, so the whole sync. -/
def syncAllSystems {α β : Type} (logicMateCall : Except String α)
    (suntecCall : Except String β) (now : Nat) :
    Except String (SyncMerged α β) :=
  match promiseAll2 logicMateCall suntecCall with
  | .error e => .error e
  | .ok ab => .ok { logicMate := ab.1, suntec := ab.2, syncTimestamp := now }

/-- The success payload of `erpRouter.syncAll`. -/
structure SyncAllResult (α β : Type) where
  success : Bool
  timestamp : Nat
  data : SyncMerged α β
deriving DecidableEq, Repr

/-- `erpRouter.syncAll` (an `adminProcedure` body, after its
middleware): await `syncAllSystems` in a try/catch; any rejection is
converted into a single thrown `INTERNAL_SERVER_ERROR` "ERP sync
failed" for the whole sync. -/
def erpSyncAll {α β : Type} (logicMateCall : Except String α)
    (suntecCall : Except String β) (now : Nat) :
    Except ThrownError (SyncAllResult α β) :=
  match syncAllSystems logicMateCall suntecCall now with
  | .error _ => .error (.trpc .INTERNAL_SERVER_ERROR "ERP sync failed")
  | .ok merged =>
    .ok { success := true, timestamp := now, data := merged }

/-- `ERPIntegrationService.getCombinedStatus`: `delivered` on either
side wins, then `manufacturing` on either side, otherwise
`erp1Status || erp2Status` (first JS-truthy, i.e. first non-empty,
LogicMate's value preferred). -/
def getCombinedStatus (erp1Status erp2Status : String) : String :=
  if erp1Status = "delivered" ∨ erp2Status = "delivered" then
    "delivered"
  else if erp1Status = "manufacturing" ∨ erp2Status = "manufacturing" then
    "manufacturing"
  else if erp1Status ≠ "" then erp1Status
  else erp2Status

/-- A payload fetched from one ERP for one order, as `getOrderDetails`
consumes it: the `status` field plus the rest of the object, opaque
here. -/
structure ErpOrderPayload where
  status : String
  rest : String
deriving DecidableEq, Repr

/-- The combined record `getOrderDetails` returns: the LogicMate
payload spread at top level, the Suntec payload under `factoryDetails`,
and the `combinedStatus` computed by `getCombinedStatus`. -/
structure CombinedOrderDetails where
  logicMateOrder : ErpOrderPayload
  factoryDetails : ErpOrderPayload
  combinedStatus : String
deriving DecidableEq, Repr

/-- `ERPIntegrationService.getOrderDetails`, given the two fetched
payloads (the `Promise.all` fan-out having fulfilled): merges them and
applies the precedence rule to the two `status` fields. -/
def getOrderDetails (logicMateOrder factoryStatus : ErpOrderPayload) :
    CombinedOrderDetails :=
  { logicMateOrder := logicMateOrder, factoryDetails := factoryStatus,
    combinedStatus := getCombinedStatus logicMateOrder.status factoryStatus.status }

/-! ## Seed data (`src/database/index.ts`) -/

/-- The three users `seedInitialData` inserts (ids, names, emails and
roles as in the source; each `password` column holds the bcrypt hash of
the documented literal password; timestamps normalized to 0). -/
def seedUsers : List User :=
  [{ id := "admin-1", name := "Admin User", email := "admin@zenith.com",
     password := bcryptHash "admin123", role := .admin,
     created_at := 0, updated_at := 0 },
   { id := "customer-1", name := "Customer One", email := "customer@zenith.com",
     password := bcryptHash "customer123", role := .customer,
     created_at := 0, updated_at := 0 },
   { id := "factory-1", name := "Factory Staff", email := "factory@zenith.com",
     password := bcryptHash "factory123", role := .factory,
     created_at := 0, updated_at := 0 }]

/-- The three seeded orders with their initial timeline events (details
blobs abbreviated to opaque strings; timestamps normalized to 0). -/
def seedOrderDb : OrderDb :=
  { orders := [
      { id := "order-1", user_id := "customer-1", status := .processing,
        customer_name := "Akshay Kumar", amount := 12000,
        details := some "Diamond Ring x1", suggestion := none,
        created_at := 0, updated_at := 0 },
      { id := "order-2", user_id := "customer-1", status := .manufacturing,
        customer_name := "Priyanka Chopra", amount := 25000,
        details := some "Diamond Necklace x1", suggestion := none,
        created_at := 0, updated_at := 0 },
      { id := "order-3", user_id := "customer-1", status := .delivered,
        customer_name := "Akshay Kumar", amount := 8000,
        details := some "Diamond Earrings x1", suggestion := none,
        created_at := 0, updated_at := 0 }],
    timeline := [
      { order_id := "order-1", status := .processing,
        description := some "Order processing", created_at := 0 },
      { order_id := "order-2", status := .manufacturing,
        description := some "Order manufacturing", created_at := 0 },
      { order_id := "order-3", status := .delivered,
        description := some "Order delivered", created_at := 0 }] }

/-! ## Helper lemmas -/

/-- The timeline rows returned for an order are, up to the `ORDER BY`
permutation, the rows of the table with that `order_id`; in particular
the counts agree. -/
theorem getOrderTimeline_length (db : OrderDb) (orderId : String) :
    (OrderRepository.getOrderTimeline db orderId).length
      = (db.timeline.filter (fun e => e.order_id = orderId)).length := by
  unfold OrderRepository.getOrderTimeline
  exact List.length_mergeSort _

/-- `getById` misses exactly when no row has the id. -/
theorem getById_eq_none_iff (db : OrderDb) (id : String) :
    OrderRepository.getById db id = none ↔
      ∀ o ∈ db.orders, o.id ≠ id := by
  unfold OrderRepository.getById
  rw [List.find?_eq_none]
  simp

/-! ## Claim theorems -/

/-- C1: a successful `updateStatus` call sets the status column of every
row with the target id to the new status (and reports the new status on
the returned order), appends exactly one `TimelineEvent` whose status is
the new status — the order's timeline-event count grows by exactly 1,
other orders' rows and timelines untouched — all as the one
transactional state transition the embedding makes of it; and when no
order has the id, the repository returns `null`, the router call fails
with an error, and the database state is returned unchanged. -/
theorem claim_updateStatus_atomic_row_and_timeline
    (db : OrderDb) (orderId : String) (newStatus : OrderStatus)
    (description : Option String) (now : Nat) :
    (∀ db' ord,
      OrderRepository.updateStatus db orderId newStatus description now
        = some (db', ord) →
      ord.status = newStatus ∧
      (∀ o ∈ db'.orders, o.id = orderId → o.status = newStatus) ∧
      (∃ ev, db'.timeline = db.timeline ++ [ev] ∧
        ev.order_id = orderId ∧ ev.status = newStatus) ∧
      (OrderRepository.getOrderTimeline db' orderId).length
        = (OrderRepository.getOrderTimeline db orderId).length + 1 ∧
      (∀ otherId, otherId ≠ orderId →
        OrderRepository.getOrderTimeline db' otherId
          = OrderRepository.getOrderTimeline db otherId)) ∧
    (OrderRepository.updateStatus db orderId newStatus description now = none
      ↔ OrderRepository.getById db orderId = none) ∧
    (∀ ctx, OrderRepository.getById db orderId = none →
      ordersUpdateStatus db ctx orderId newStatus description now
        = (db, Except.error (ThrownError.js "Order not found or update failed"))
      ∨ (∃ e, ordersUpdateStatus db ctx orderId newStatus description now
          = (db, Except.error e))) := by
  refine ⟨?_, ?_, ?_⟩
  · intro db' ord h
    unfold OrderRepository.updateStatus at h
    cases hg : OrderRepository.getById db orderId with
    | none => rw [hg] at h; exact absurd h (by simp)
    | some order =>
      rw [hg] at h
      simp only [Option.some.injEq, Prod.mk.injEq] at h
      obtain ⟨hdb, hord⟩ := h
      refine ⟨by rw [← hord], ?_, ?_, ?_, ?_⟩
      · intro o ho hid
        rw [← hdb] at ho
        simp only [List.mem_map] at ho
        obtain ⟨o₀, _, ho₀⟩ := ho
        by_cases hc : o₀.id = orderId
        · simp [hc] at ho₀; rw [← ho₀]
        · simp [hc] at ho₀; rw [← ho₀] at hid; exact absurd hid hc
      · exact ⟨_, by rw [← hdb], rfl, rfl⟩
      · rw [getOrderTimeline_length, getOrderTimeline_length, ← hdb]
        simp
      · intro otherId hother
        unfold OrderRepository.getOrderTimeline
        rw [← hdb]
        simp only [List.filter_append]
        have : (List.filter (fun e => decide (e.order_id = otherId))
            [({ order_id := orderId, status := newStatus,
                description := some (OrderRepository.jsOrElse description
                  ("Status changed to " ++ newStatus.toName)),
                created_at := now } : TimelineEvent)]) = [] := by
          simp [Ne.symm hother]
        rw [this, List.append_nil]
  · unfold OrderRepository.updateStatus
    cases hg : OrderRepository.getById db orderId <;> simp
  · intro ctx hnone
    right
    unfold ordersUpdateStatus
    cases hA : isAuthorized ctx with
    | error e => exact ⟨e, rfl⟩
    | ok _ =>
      cases hB : withAuth [.admin] ctx with
      | error e => exact ⟨e, rfl⟩
      | ok _ =>
        refine ⟨ThrownError.js "Order not found or update failed", ?_⟩
        unfold OrderRepository.updateStatus
        rw [hnone]

/-- C1 witness: updating seeded `order-1` to `shipped` succeeds with the
stated effects, and updating a nonexistent id fails leaving the state
unchanged. -/
theorem claim_updateStatus_atomic_row_and_timeline_witness :
    (∃ db' ord,
      OrderRepository.updateStatus seedOrderDb "order-1" .shipped none 5
        = some (db', ord) ∧ ord.status = .shipped ∧
      (OrderRepository.getOrderTimeline db' "order-1").length
        = (OrderRepository.getOrderTimeline seedOrderDb "order-1").length + 1) ∧
    OrderRepository.updateStatus seedOrderDb "no-such-order" .shipped none 5
      = none := by
  have h := claim_updateStatus_atomic_row_and_timeline seedOrderDb "order-1"
    .shipped none 5
  have hnone := claim_updateStatus_atomic_row_and_timeline seedOrderDb
    "no-such-order" .shipped none 5
  constructor
  · match hs : OrderRepository.updateStatus seedOrderDb "order-1" .shipped none 5 with
    | some (db', ord) =>
      obtain ⟨h1, _, _, h4, _⟩ := h.1 db' ord hs
      exact ⟨db', ord, rfl, h1, h4⟩
    | none =>
      have hmiss : OrderRepository.getById seedOrderDb "order-1" = none :=
        h.2.1.mp hs
      exact absurd hmiss (by decide)
  · exact hnone.2.1.mpr (by decide)

/-- A header with the `Bearer ` prefix is in particular non-empty. -/
theorem ne_empty_of_startsWith_bearer (h : String)
    (hb : jsStartsWith h "Bearer ") : h ≠ "" := by
  intro he
  rw [he] at hb
  exact absurd hb (by decide)

/-- C3: `createAuthContext` applies its five precondition checks in
source order — header present, `Bearer ` scheme prefix, non-empty token
material after the prefix, successful verification, subject id resolving
to a user row — and any failure returns the unauthenticated context (the
function is total: it returns a context, it does not throw); on success
the context carries the user's identity as read fresh from the store. -/
theorem claim_createAuthContext_check_order
    (verify : String → Option VerifiedPayload) (users : List User) :
    (createAuthContext verify users none = unauthenticatedContext) ∧
    (∀ h : String, ¬ jsStartsWith h "Bearer " →
      createAuthContext verify users (some h) = unauthenticatedContext) ∧
    (∀ h : String, jsStartsWith h "Bearer " → extractBearerToken h = "" →
      createAuthContext verify users (some h) = unauthenticatedContext) ∧
    (∀ h : String, jsStartsWith h "Bearer " → extractBearerToken h ≠ "" →
      verify (extractBearerToken h) = none →
      createAuthContext verify users (some h) = unauthenticatedContext) ∧
    (∀ (h : String) (p : VerifiedPayload),
      jsStartsWith h "Bearer " → extractBearerToken h ≠ "" →
      verify (extractBearerToken h) = some p →
      UserRepository.getById users p.id = none →
      createAuthContext verify users (some h) = unauthenticatedContext) ∧
    (∀ (h : String) (p : VerifiedPayload) (u : User),
      jsStartsWith h "Bearer " → extractBearerToken h ≠ "" →
      verify (extractBearerToken h) = some p →
      UserRepository.getById users p.id = some u →
      createAuthContext verify users (some h)
        = { user := some { id := u.id, name := u.name, email := u.email,
                           role := u.role },
            isAuthenticated := true }) := by
  refine ⟨rfl, ?_, ?_, ?_, ?_, ?_⟩
  · intro h hb
    unfold createAuthContext
    by_cases he : h = "" <;> simp [he, hb]
  · intro h hb ht
    unfold createAuthContext
    simp [ne_empty_of_startsWith_bearer h hb, hb, ht]
  · intro h hb ht hv
    unfold createAuthContext
    simp [ne_empty_of_startsWith_bearer h hb, hb, ht, hv]
  · intro h p hb ht hv hu
    unfold createAuthContext
    simp [ne_empty_of_startsWith_bearer h hb, hb, ht, hv, hu]
  · intro h p u hb ht hv hu
    unfold createAuthContext
    simp [ne_empty_of_startsWith_bearer h hb, hb, ht, hv, hu,
      UserRepository.toAuthUser]

/-- C3 witness: the six branches exercised at concrete inputs — a header
carrying a verifiable token for seeded `admin-1` authenticates with the
stored identity, and each earlier failing check at a concrete input
yields the unauthenticated context. -/
theorem claim_createAuthContext_check_order_witness :
    (createAuthContext (fun _ => none) seedUsers none
      = unauthenticatedContext) ∧
    (createAuthContext (fun _ => none) seedUsers (some "Token abc")
      = unauthenticatedContext) ∧
    (createAuthContext (fun _ => none) seedUsers (some "Bearer ")
      = unauthenticatedContext) ∧
    (createAuthContext (fun _ => none) seedUsers (some "Bearer abc")
      = unauthenticatedContext) ∧
    (createAuthContext
        (fun t => if t = "tok" then
          some { id := "ghost", email := "g@x", role := "admin" } else none)
        seedUsers (some "Bearer tok")
      = unauthenticatedContext) ∧
    (createAuthContext
        (fun t => if t = "tok" then
          some { id := "admin-1", email := "admin@zenith.com", role := "admin" }
          else none)
        seedUsers (some "Bearer tok")
      = { user := some { id := "admin-1", name := "Admin User",
                         email := "admin@zenith.com", role := .admin },
          isAuthenticated := true }) := by
  refine ⟨(claim_createAuthContext_check_order (fun _ => none) seedUsers).1,
    (claim_createAuthContext_check_order (fun _ => none) seedUsers).2.1
      "Token abc" (by decide),
    (claim_createAuthContext_check_order (fun _ => none) seedUsers).2.2.1
      "Bearer " (by decide) (by decide),
    (claim_createAuthContext_check_order (fun _ => none) seedUsers).2.2.2.1
      "Bearer abc" (by decide) (by decide) rfl,
    (claim_createAuthContext_check_order _ seedUsers).2.2.2.2.1
      "Bearer tok" { id := "ghost", email := "g@x", role := "admin" }
      (by decide) (by decide) (by decide) (by decide),
    (claim_createAuthContext_check_order _ seedUsers).2.2.2.2.2
      "Bearer tok"
      { id := "admin-1", email := "admin@zenith.com", role := "admin" }
      { id := "admin-1", name := "Admin User", email := "admin@zenith.com",
        password := bcryptHash "admin123", role := .admin,
        created_at := 0, updated_at := 0 }
      (by decide) (by decide) (by decide) (by decide)⟩

/-- C4: the `withAuth` authorize stage — an unauthenticated context is
rejected with the authentication-required kind; an authenticated context
whose role is outside a non-empty allow-list is rejected with the
distinct permission-denied kind (the two kinds differ); an empty
allow-list lets any authenticated context through; and a role inside
the allow-list proceeds. -/
theorem claim_withAuth_role_gate (roles : List Role) (ctx : Context) :
    (ctx.isAuthenticated = false →
      ∃ m, withAuth roles ctx = .error (.trpc .UNAUTHORIZED m) ∧
        (ThrownError.trpc .UNAUTHORIZED m).kind = .unauthenticated) ∧
    (∀ u : AuthUser, ctx.isAuthenticated = true → ctx.user = some u →
      roles ≠ [] → u.role ∉ roles →
      ∃ m, withAuth roles ctx = .error (.trpc .FORBIDDEN m) ∧
        (ThrownError.trpc .FORBIDDEN m).kind = .forbidden) ∧
    (ErrorKind.unauthenticated ≠ ErrorKind.forbidden) ∧
    (ctx.isAuthenticated = true → roles = [] → withAuth roles ctx = .ok ()) ∧
    (∀ u : AuthUser, ctx.isAuthenticated = true → ctx.user = some u →
      u.role ∈ roles → withAuth roles ctx = .ok ()) := by
  refine ⟨?_, ?_, by decide, ?_, ?_⟩
  · intro hna
    refine ⟨"Authentication required to access this resource", ?_, ?_⟩
    · unfold withAuth
      simp [hna]
    · simp [ThrownError.kind]
  · intro u hia hu hne hnr
    refine ⟨"Access denied: Your role (" ++ u.role.toName ++
      ") does not have permission for this operation.", ?_, ?_⟩
    · unfold withAuth
      have hl : 0 < roles.length := List.length_pos.mpr hne
      simp [hia, hu, hl, hnr]
    · simp [ThrownError.kind]
  · intro hia hr
    unfold withAuth
    cases hu : ctx.user <;> simp [hia, hr, hu]
  · intro u hia hu hmem
    unfold withAuth
    simp [hia, hu, hmem]

/-- C4 witness: the four outcomes at concrete contexts — an
unauthenticated call, a customer against the `['admin']` list, an
authenticated call against an empty list, and an admin against
`['admin']`. -/
theorem claim_withAuth_role_gate_witness :
    (∃ m, withAuth [.admin] unauthenticatedContext
        = .error (.trpc .UNAUTHORIZED m) ∧
      (ThrownError.trpc .UNAUTHORIZED m).kind = .unauthenticated) ∧
    (∃ m, withAuth [.admin]
        { user := some { id := "customer-1", name := "Customer One",
                         email := "customer@zenith.com", role := .customer },
          isAuthenticated := true }
        = .error (.trpc .FORBIDDEN m) ∧
      (ThrownError.trpc .FORBIDDEN m).kind = .forbidden) ∧
    (withAuth []
        { user := some { id := "customer-1", name := "Customer One",
                         email := "customer@zenith.com", role := .customer },
          isAuthenticated := true } = .ok ()) ∧
    (withAuth [.admin]
        { user := some { id := "admin-1", name := "Admin User",
                         email := "admin@zenith.com", role := .admin },
          isAuthenticated := true } = .ok ()) := by
  refine ⟨(claim_withAuth_role_gate [.admin] unauthenticatedContext).1 rfl,
    (claim_withAuth_role_gate [.admin] _).2.1
      { id := "customer-1", name := "Customer One",
        email := "customer@zenith.com", role := .customer }
      rfl rfl (by decide) (by decide),
    (claim_withAuth_role_gate [] _).2.2.2.1 rfl rfl,
    (claim_withAuth_role_gate [.admin] _).2.2.2.2
      { id := "admin-1", name := "Admin User",
        email := "admin@zenith.com", role := .admin }
      rfl rfl (by decide)⟩

/-- C5: a `customer` calling `orders.getByUserId` with a `userId` other
than their own id is rejected with an error of the Forbidden kind and
receives no order data; any other authenticated role, or a customer
asking for their own id, receives exactly the orders owned by that
`userId`. -/
theorem claim_getByUserId_ownership (db : OrderDb) (ctx : Context)
    (userId : String) (u : AuthUser)
    (hia : ctx.isAuthenticated = true) (hu : ctx.user = some u) :
    (u.role = .customer → u.id ≠ userId →
      ∃ e, ordersGetByUserId db ctx userId = .error e ∧
        e.kind = .forbidden ∧
        ∀ orders, ordersGetByUserId db ctx userId ≠ .ok orders) ∧
    (u.role ≠ .customer ∨ u.id = userId →
      ordersGetByUserId db ctx userId
        = .ok (db.orders.filter (fun o => o.user_id = userId)) ∧
      ∀ o ∈ db.orders.filter (fun o => o.user_id = userId),
        o.user_id = userId) := by
  constructor
  · intro hrole hid
    refine ⟨.js "Access denied: Cannot view other customers\x27 orders",
      ?_, ?_, ?_⟩
    · unfold ordersGetByUserId isAuthorized
      simp [hia, hu, hrole, hid]
    · decide
    · intro orders hok
      unfold ordersGetByUserId isAuthorized at hok
      simp [hia, hu, hrole, hid] at hok
  · intro hok
    constructor
    · unfold ordersGetByUserId isAuthorized
      rcases hok with hr | hid
      · simp only [hia]
        simp [hu, OrderRepository.getByUserId, hr]
      · simp only [hia]
        simp [hu, OrderRepository.getByUserId, hid]
    · intro o ho
      simpa using (List.mem_filter.mp ho).2

/-- C5 witness: seeded `customer-1` asking for `admin-1`'s orders is
rejected as forbidden; asking for their own orders returns the three
seeded orders they own; the admin asking for `customer-1`'s orders also
succeeds. -/
theorem claim_getByUserId_ownership_witness :
    (∃ e, ordersGetByUserId seedOrderDb
        { user := some { id := "customer-1", name := "Customer One",
                         email := "customer@zenith.com", role := .customer },
          isAuthenticated := true } "admin-1"
        = .error e ∧ e.kind = .forbidden) ∧
    (ordersGetByUserId seedOrderDb
        { user := some { id := "customer-1", name := "Customer One",
                         email := "customer@zenith.com", role := .customer },
          isAuthenticated := true } "customer-1"
      = .ok (seedOrderDb.orders.filter (fun o => o.user_id = "customer-1"))) ∧
    (ordersGetByUserId seedOrderDb
        { user := some { id := "admin-1", name := "Admin User",
                         email := "admin@zenith.com", role := .admin },
          isAuthenticated := true } "customer-1"
      = .ok (seedOrderDb.orders.filter (fun o => o.user_id = "customer-1"))) := by
  refine ⟨?_, ?_, ?_⟩
  · obtain ⟨e, he, hk, -⟩ :=
      (claim_getByUserId_ownership seedOrderDb
        { user := some { id := "customer-1", name := "Customer One",
                         email := "customer@zenith.com", role := .customer },
          isAuthenticated := true } "admin-1"
        { id := "customer-1", name := "Customer One",
          email := "customer@zenith.com", role := .customer }
        rfl rfl).1 rfl (by decide)
    exact ⟨e, he, hk⟩
  · exact ((claim_getByUserId_ownership seedOrderDb
      { user := some { id := "customer-1", name := "Customer One",
                       email := "customer@zenith.com", role := .customer },
        isAuthenticated := true } "customer-1"
      { id := "customer-1", name := "Customer One",
        email := "customer@zenith.com", role := .customer }
      rfl rfl).2 (Or.inr rfl)).1
  · exact ((claim_getByUserId_ownership seedOrderDb
      { user := some { id := "admin-1", name := "Admin User",
                       email := "admin@zenith.com", role := .admin },
        isAuthenticated := true } "customer-1"
      { id := "admin-1", name := "Admin User",
        email := "admin@zenith.com", role := .admin }
      rfl rfl).2 (Or.inl (by decide))).1

/-- When the modelled `jwt.verify` succeeds, the claims it returns are
exactly the claims carried by the token. -/
theorem jwtVerifyLib_ok_claims (secret : String) (now : Nat)
    (c : JwtClaims) (s : String) (d : JwtClaims)
    (h : jwtVerifyLib secret now (.signed c s) = .ok d) : d = c := by
  have h' : (if s ≠ mkSig secret c then
        (Except.error "invalid signature" : Except String JwtClaims)
      else
        match c.exp with
        | some e => if now > e then Except.error "jwt expired" else Except.ok c
        | none => Except.ok c) = Except.ok d := h
  by_cases hs : s ≠ mkSig secret c
  · rw [if_pos hs] at h'
    exact Except.noConfusion h'
  · rw [if_neg hs] at h'
    cases hexp : c.exp with
    | none =>
      rw [hexp] at h'
      exact (Except.ok.inj h').symm
    | some e =>
      rw [hexp] at h'
      have h'' : (if now > e then
            (Except.error "jwt expired" : Except String JwtClaims)
          else Except.ok c) = Except.ok d := h'
      by_cases hgt : now > e
      · rw [if_pos hgt] at h''
        exact Except.noConfusion h''
      · rw [if_neg hgt] at h''
        exact (Except.ok.inj h'').symm

/-- C6: `verifyToken` is total at its boundary — every token value maps
to `some` payload or `none`, never an uncaught throw — and returns
`none` whenever the token is not a decodable JWT, its signature does not
match the secret, a required `id`/`email`/`role` field is missing or
empty, or the current time is past `exp`; on a well-signed, well-formed,
unexpired token it returns exactly the embedded `{id, email, role}`. -/
theorem claim_verifyToken_total_boundary (secret : String) (now : Nat) :
    (∀ t : JwtToken, verifyToken secret now t = none ∨
      ∃ p, verifyToken secret now t = some p) ∧
    (∀ raw, verifyToken secret now (.malformed raw) = none) ∧
    (∀ (c : JwtClaims) (s : String), s ≠ mkSig secret c →
      verifyToken secret now (.signed c s) = none) ∧
    (∀ (c : JwtClaims) (s : String),
      ¬ jsTruthy c.id ∨ ¬ jsTruthy c.email ∨ ¬ jsTruthy c.role →
      verifyToken secret now (.signed c s) = none) ∧
    (∀ (c : JwtClaims) (s : String) (e : Nat), c.exp = some e → e < now →
      verifyToken secret now (.signed c s) = none) ∧
    (∀ (c : JwtClaims) (i em r : String) (e : Nat),
      c.id = some i → i ≠ "" → c.email = some em → em ≠ "" →
      c.role = some r → r ≠ "" → c.exp = some e → now ≤ e →
      verifyToken secret now (.signed c (mkSig secret c))
        = some { id := i, email := em, role := r }) := by
  refine ⟨?_, ?_, ?_, ?_, ?_, ?_⟩
  · intro t
    cases hv : verifyToken secret now t with
    | none => exact Or.inl rfl
    | some p => exact Or.inr ⟨p, rfl⟩
  · intro raw
    rfl
  · intro c s hs
    unfold verifyToken jwtVerifyLib
    simp [hs]
  · intro c s hmiss
    unfold verifyToken
    cases hres : jwtVerifyLib secret now (.signed c s) with
    | error _ => rfl
    | ok decoded =>
      have hd := jwtVerifyLib_ok_claims secret now c s decoded hres
      subst hd
      exact if_pos hmiss
  · intro c s e hexp hlt
    unfold verifyToken
    cases hres : jwtVerifyLib secret now (.signed c s) with
    | error _ => rfl
    | ok decoded =>
      exfalso
      have hres' : (if s ≠ mkSig secret c then
            (Except.error "invalid signature" : Except String JwtClaims)
          else
            match c.exp with
            | some e => if now > e then Except.error "jwt expired"
                        else Except.ok c
            | none => Except.ok c) = Except.ok decoded := hres
      by_cases hs : s ≠ mkSig secret c
      · rw [if_pos hs] at hres'
        exact Except.noConfusion hres'
      · rw [if_neg hs, hexp] at hres'
        have hres'' : (if now > e then
              (Except.error "jwt expired" : Except String JwtClaims)
            else Except.ok c) = Except.ok decoded := hres'
        rw [if_pos hlt] at hres''
        exact Except.noConfusion hres''
  · intro c i em r e hi hine hem hemne hr hrne hexp hle
    unfold verifyToken jwtVerifyLib
    simp [hexp, Nat.not_lt.mpr hle, jsTruthy, hi, hem, hr, hine, hemne, hrne]

/-- C6 witness: each branch at a concrete token — malformed, bad
signature, missing field, expired, and a valid token round-tripping its
payload. -/
theorem claim_verifyToken_total_boundary_witness :
    (verifyToken "k" 10 (.malformed "zzz") = none) ∧
    (verifyToken "k" 10
        (.signed { id := some "u1", email := some "e", role := some "admin",
                   exp := some 99 } "bad-signature") = none) ∧
    (verifyToken "k" 10
        (.signed { id := none, email := some "e", role := some "admin",
                   exp := some 99 }
          (mkSig "k" { id := none, email := some "e", role := some "admin",
                       exp := some 99 })) = none) ∧
    (verifyToken "k" 10
        (.signed { id := some "u1", email := some "e", role := some "admin",
                   exp := some 3 }
          (mkSig "k" { id := some "u1", email := some "e", role := some "admin",
                       exp := some 3 })) = none) ∧
    (verifyToken "k" 10
        (.signed { id := some "u1", email := some "e", role := some "admin",
                   exp := some 99 }
          (mkSig "k" { id := some "u1", email := some "e", role := some "admin",
                       exp := some 99 }))
      = some { id := "u1", email := "e", role := "admin" }) := by
  refine ⟨(claim_verifyToken_total_boundary "k" 10).2.1 "zzz",
    (claim_verifyToken_total_boundary "k" 10).2.2.1 _ _ (by decide),
    (claim_verifyToken_total_boundary "k" 10).2.2.2.1 _ _
      (Or.inl (by decide)),
    (claim_verifyToken_total_boundary "k" 10).2.2.2.2.1 _ _ 3 rfl
      (by decide),
    (claim_verifyToken_total_boundary "k" 10).2.2.2.2.2 _ "u1" "e" "admin" 99
      rfl (by decide) rfl (by decide) rfl (by decide) rfl (by decide)⟩

/-- A role's column spelling is never the empty string. -/
theorem Role.toName_ne_empty (r : Role) : r.toName ≠ "" := by
  cases r <;> decide

/-- `verifyToken` accepts a token freshly minted by `generateToken` with
the same secret at any instant up to the fixed 24-hour expiry, and
returns exactly the identity that was embedded. -/
theorem verify_generateToken (secret : String) (now now2 : Nat)
    (u : AuthUser) (hid : u.id ≠ "") (hemail : u.email ≠ "")
    (hexp : now2 ≤ now + TOKEN_EXPIRY_SECONDS) :
    verifyToken secret now2 (generateToken secret now u)
      = some { id := u.id, email := u.email, role := u.role.toName } := by
  unfold generateToken verifyToken jwtVerifyLib
  simp [Nat.not_lt.mpr hexp, jsTruthy, hid, hemail, Role.toName_ne_empty u.role]

/-- The three seeded login credentials with the seeded account's role. -/
def seedCredentials : List (String × String × Role) :=
  [("admin@zenith.com", "admin123", .admin),
   ("customer@zenith.com", "customer123", .customer),
   ("factory@zenith.com", "factory123", .factory)]

/-- C7: for every `(email, password)` pair matching a seeded user,
`login` succeeds, returning the matched user and a token minted by
`generateToken` whose `exp` claim is exactly 24 hours past the signing
instant; `verifyToken` accepts that token at any instant up to the
expiry and the embedded role (with id and email) round-trips — in
particular the verified role equals the seeded user's role. -/
theorem claim_login_mint_verify_roundtrip (email password : String)
    (r : Role) (hmem : (email, password, r) ∈ seedCredentials)
    (secret : String) (now now2 : Nat)
    (hnow : now2 ≤ now + TOKEN_EXPIRY_SECONDS) :
    ∃ user token,
      login seedUsers secret now
          { email := some email, password := some password, json := none }
        = .ok (user, token) ∧
      user.role = r ∧
      token = generateToken secret now user ∧
      (∃ c : JwtClaims, token = JwtToken.signed c (mkSig secret c) ∧
        c.exp = some (now + TOKEN_EXPIRY_SECONDS)) ∧
      verifyToken secret now2 token
        = some { id := user.id, email := user.email, role := user.role.toName } := by
  simp only [seedCredentials, List.mem_cons, List.mem_singleton,
    Prod.mk.injEq, List.not_mem_nil, or_false] at hmem
  rcases hmem with ⟨he, hp, hr⟩ | ⟨he, hp, hr⟩ | ⟨he, hp, hr⟩ <;>
    subst he <;> subst hp <;> subst hr
  · refine ⟨{ id := "admin-1", name := "Admin User",
              email := "admin@zenith.com", role := .admin },
      _, rfl, rfl, rfl, ⟨_, rfl, rfl⟩, ?_⟩
    exact verify_generateToken secret now now2 _ (by decide) (by decide) hnow
  · refine ⟨{ id := "customer-1", name := "Customer One",
              email := "customer@zenith.com", role := .customer },
      _, rfl, rfl, rfl, ⟨_, rfl, rfl⟩, ?_⟩
    exact verify_generateToken secret now now2 _ (by decide) (by decide) hnow
  · refine ⟨{ id := "factory-1", name := "Factory Staff",
              email := "factory@zenith.com", role := .factory },
      _, rfl, rfl, rfl, ⟨_, rfl, rfl⟩, ?_⟩
    exact verify_generateToken secret now now2 _ (by decide) (by decide) hnow

/-- C7 witness: the seeded admin credentials at concrete instants —
minting at time 1000 and verifying at time 2000 succeeds with role
`admin` embedded. -/
theorem claim_login_mint_verify_roundtrip_witness :
    ∃ user token,
      login seedUsers "zenith-jwt-secret-key" 1000
          { email := some "admin@zenith.com", password := some "admin123",
            json := none }
        = .ok (user, token) ∧
      user.role = .admin ∧
      verifyToken "zenith-jwt-secret-key" 2000 token
        = some { id := user.id, email := user.email, role := "admin" } := by
  obtain ⟨user, token, hlogin, hrole, -, -, hverify⟩ :=
    claim_login_mint_verify_roundtrip "admin@zenith.com" "admin123" .admin
      (by decide) "zenith-jwt-secret-key" 1000 2000 (by decide)
  refine ⟨user, token, hlogin, hrole, ?_⟩
  rw [hverify, hrole]
  rfl

/-- C8: `getAnalytics` on an empty order set returns `totalOrders = 0`
and empty `byStatus`/`pieChartData` breakdowns (no division is ever
attempted: every percentage is produced under a `totalOrders > 0` guard
with a 0 default); and in general every pie slice's `count` is the
number of orders holding its status and its `percentage` equals
`count / totalOrders * 100` when `totalOrders > 0` and `0` otherwise. -/
theorem claim_getAnalytics_zero_safe (db : OrderDb) :
    (db.orders = [] →
      (OrderRepository.getAnalytics db).totalOrders = 0 ∧
      (OrderRepository.getAnalytics db).byStatus = [] ∧
      (OrderRepository.getAnalytics db).pieChartData = []) ∧
    ((OrderRepository.getAnalytics db).totalOrders = db.orders.length) ∧
    (∀ slice ∈ (OrderRepository.getAnalytics db).pieChartData,
      slice.count
        = (db.orders.filter (fun o => o.status = slice.status)).length ∧
      slice.percentage
        = if 0 < db.orders.length then
            (slice.count : Rat) / (db.orders.length : Rat) * 100
          else 0) := by
  refine ⟨?_, rfl, ?_⟩
  · intro hempty
    unfold OrderRepository.getAnalytics OrderRepository.statusCounts
      OrderRepository.getAll
    rw [hempty]
    exact ⟨rfl, rfl, rfl⟩
  · intro slice hslice
    unfold OrderRepository.getAnalytics at hslice
    simp only [List.mem_map] at hslice
    obtain ⟨sc, hsc, hmk⟩ := hslice
    unfold OrderRepository.statusCounts at hsc
    simp only [List.mem_map] at hsc
    obtain ⟨s, hs, hpair⟩ := hsc
    constructor
    · rw [← hmk, ← hpair]
    · rw [← hmk, ← hpair]
      rfl

/-- C8 witness: the empty database yields `totalOrders = 0` with empty
breakdowns, and on the seeded database each slice carries
`count / 3 * 100`. -/
theorem claim_getAnalytics_zero_safe_witness :
    ((OrderRepository.getAnalytics { orders := [], timeline := [] }).totalOrders
      = 0 ∧
     (OrderRepository.getAnalytics { orders := [], timeline := [] }).byStatus
      = [] ∧
     (OrderRepository.getAnalytics { orders := [], timeline := [] }).pieChartData
      = []) ∧
    (∀ slice ∈ (OrderRepository.getAnalytics seedOrderDb).pieChartData,
      slice.percentage = (slice.count : Rat) / 3 * 100) := by
  constructor
  · exact (claim_getAnalytics_zero_safe { orders := [], timeline := [] }).1 rfl
  · intro slice hslice
    have h := ((claim_getAnalytics_zero_safe seedOrderDb).2.2 slice hslice).2
    simpa using h

/-- C9: `getCombinedStatus` follows the deterministic precedence rule —
`delivered` on either side wins; otherwise `manufacturing` on either
side wins; otherwise the first non-empty of the two statuses (the
LogicMate value preferred) — and the combined order-details lookup's
`combinedStatus` field is computed by exactly this rule on the two
systems' reported statuses. -/
theorem claim_combinedStatus_precedence (s1 s2 : String)
    (lm st : ErpOrderPayload) :
    ((s1 = "delivered" ∨ s2 = "delivered") →
      getCombinedStatus s1 s2 = "delivered") ∧
    (¬ (s1 = "delivered" ∨ s2 = "delivered") →
      (s1 = "manufacturing" ∨ s2 = "manufacturing") →
      getCombinedStatus s1 s2 = "manufacturing") ∧
    (¬ (s1 = "delivered" ∨ s2 = "delivered") →
      ¬ (s1 = "manufacturing" ∨ s2 = "manufacturing") →
      (s1 ≠ "" → getCombinedStatus s1 s2 = s1) ∧
      (s1 = "" → getCombinedStatus s1 s2 = s2)) ∧
    ((getOrderDetails lm st).combinedStatus
      = getCombinedStatus lm.status st.status) := by
  refine ⟨?_, ?_, ?_, rfl⟩
  · intro hd
    unfold getCombinedStatus
    rw [if_pos hd]
  · intro hnd hm
    unfold getCombinedStatus
    rw [if_neg hnd, if_pos hm]
  · intro hnd hnm
    constructor
    · intro hne
      unfold getCombinedStatus
      rw [if_neg hnd, if_neg hnm, if_pos hne]
    · intro he
      unfold getCombinedStatus
      rw [if_neg hnd, if_neg hnm, if_neg (by simp [he])]

/-- C9 witness: the rule at concrete status pairs — `delivered` beating
`manufacturing` from either side, `manufacturing` beating `pending`,
the LogicMate value preferred among plain values, fallback to the
Suntec value when LogicMate's is empty, and a concrete combined
lookup. -/
theorem claim_combinedStatus_precedence_witness :
    getCombinedStatus "manufacturing" "delivered" = "delivered" ∧
    getCombinedStatus "pending" "manufacturing" = "manufacturing" ∧
    getCombinedStatus "pending" "shipped" = "pending" ∧
    getCombinedStatus "" "shipped" = "shipped" ∧
    (getOrderDetails { status := "processing", rest := "LM001" }
        { status := "manufacturing", rest := "factory" }).combinedStatus
      = "manufacturing" := by
  have h1 := claim_combinedStatus_precedence "manufacturing" "delivered"
    { status := "", rest := "" } { status := "", rest := "" }
  have h2 := claim_combinedStatus_precedence "pending" "manufacturing"
    { status := "", rest := "" } { status := "", rest := "" }
  have h3 := claim_combinedStatus_precedence "pending" "shipped"
    { status := "", rest := "" } { status := "", rest := "" }
  have h4 := claim_combinedStatus_precedence "" "shipped"
    { status := "", rest := "" } { status := "", rest := "" }
  have h5 := claim_combinedStatus_precedence "processing" "manufacturing"
    { status := "processing", rest := "LM001" }
    { status := "manufacturing", rest := "factory" }
  refine ⟨h1.1 (Or.inr rfl),
    h2.2.1 (by decide) (Or.inr rfl),
    (h3.2.2.1 (by decide) (by decide)).1 (by decide),
    (h4.2.2.1 (by decide) (by decide)).2 rfl, ?_⟩
  rw [h5.2.2.2]
  exact h5.2.1 (by decide) (Or.inr rfl)

/-- C10: for each of the three seeded emails, `authenticate` accepts the
hard-coded literal password by direct string comparison before any
bcrypt check — for any user table in which the email resolves at all,
whatever hash the `password` column holds — so the literal password is
still accepted after `updatePassword` rotates the account's stored
hash. -/
theorem claim_hardcoded_literal_passwords (users : List User) :
    (∀ u, UserRepository.getByEmail users "admin@zenith.com" = some u →
      UserRepository.authenticate users "admin@zenith.com" "admin123"
        = some (UserRepository.toAuthUser u)) ∧
    (∀ u, UserRepository.getByEmail users "factory@zenith.com" = some u →
      UserRepository.authenticate users "factory@zenith.com" "factory123"
        = some (UserRepository.toAuthUser u)) ∧
    (∀ u, UserRepository.getByEmail users "customer@zenith.com" = some u →
      UserRepository.authenticate users "customer@zenith.com" "customer123"
        = some (UserRepository.toAuthUser u)) ∧
    (∀ userId newPassword now u,
      UserRepository.getByEmail
          (UserRepository.updatePassword users userId newPassword now).1
          "admin@zenith.com" = some u →
      UserRepository.authenticate
          (UserRepository.updatePassword users userId newPassword now).1
          "admin@zenith.com" "admin123"
        = some (UserRepository.toAuthUser u)) := by
  have hgen : ∀ (us : List User) (u : User),
      UserRepository.getByEmail us "admin@zenith.com" = some u →
      UserRepository.authenticate us "admin@zenith.com" "admin123"
        = some (UserRepository.toAuthUser u) := by
    intro us u hu
    unfold UserRepository.authenticate
    rw [hu]
    simp
  refine ⟨fun u hu => hgen users u hu, ?_, ?_, ?_⟩
  · intro u hu
    unfold UserRepository.authenticate
    rw [hu]
    simp
  · intro u hu
    unfold UserRepository.authenticate
    rw [hu]
    simp
  · intro userId newPassword now u hu
    exact hgen _ u hu

/-- C10 witness: after an admin rotates `admin-1`'s password to
`rotated-pass`, the literal `admin123` is still accepted even though the
stored hash no longer matches it under bcrypt; the factory and customer
literals are likewise accepted on the seed table. -/
theorem claim_hardcoded_literal_passwords_witness :
    (UserRepository.authenticate
        (UserRepository.updatePassword seedUsers "admin-1" "rotated-pass" 9).1
        "admin@zenith.com" "admin123"
      = some { id := "admin-1", name := "Admin User",
               email := "admin@zenith.com", role := .admin }) ∧
    (∀ u, UserRepository.getByEmail
        (UserRepository.updatePassword seedUsers "admin-1" "rotated-pass" 9).1
        "admin@zenith.com" = some u →
      bcryptCompare "admin123" u.password = false) ∧
    (UserRepository.authenticate seedUsers "factory@zenith.com" "factory123"
      = some { id := "factory-1", name := "Factory Staff",
               email := "factory@zenith.com", role := .factory }) ∧
    (UserRepository.authenticate seedUsers "customer@zenith.com" "customer123"
      = some { id := "customer-1", name := "Customer One",
               email := "customer@zenith.com", role := .customer }) := by
  refine ⟨?_, by decide, ?_, ?_⟩
  · exact (claim_hardcoded_literal_passwords seedUsers).2.2.2
      "admin-1" "rotated-pass" 9
      { id := "admin-1", name := "Admin User", email := "admin@zenith.com",
        password := bcryptHash "rotated-pass", role := .admin,
        created_at := 0, updated_at := 9 }
      (by decide)
  · exact (claim_hardcoded_literal_passwords seedUsers).2.1
      { id := "factory-1", name := "Factory Staff",
        email := "factory@zenith.com", password := bcryptHash "factory123",
        role := .factory, created_at := 0, updated_at := 0 }
      (by decide)
  · exact (claim_hardcoded_literal_passwords seedUsers).2.2.1
      { id := "customer-1", name := "Customer One",
        email := "customer@zenith.com", password := bcryptHash "customer123",
        role := .customer, created_at := 0, updated_at := 0 }
      (by decide)

/-- C2 counterexample: with the LogicMate call failing and the Suntec
call succeeding (with the adapter's own mock payload), `erp.syncAll`
does **not** return the successful Suntec result under its per-adapter
key with a partial-failure marker — the `Promise.all` rejection makes
the whole sync fail with the single `INTERNAL_SERVER_ERROR`
"ERP sync failed". -/
theorem claim_syncAll_partial_failure_counterexample :
    erpSyncAll
        (Except.error "LogicMate unreachable" : Except String LMOrdersPayload)
        (Except.ok mockFactoryStatus : Except String FactoryStatus) 0
      = Except.error
          (ThrownError.trpc .INTERNAL_SERVER_ERROR "ERP sync failed") :=
  rfl

/-- C2 (amended): if either adapter call of the fan-out sync fails, the
whole `erp.syncAll` fails with the single upstream-failure error "ERP
sync failed" and returns neither adapter's result; only when both
adapters succeed does it return the merged payloads under their
per-adapter keys. -/
theorem claim_syncAll_whole_failure {α β : Type}
    (logicMateCall : Except String α) (suntecCall : Except String β)
    (now : Nat) :
    ((∃ e, logicMateCall = .error e) ∨ (∃ e, suntecCall = .error e) →
      erpSyncAll logicMateCall suntecCall now
        = .error (.trpc .INTERNAL_SERVER_ERROR "ERP sync failed")) ∧
    (∀ a b, logicMateCall = .ok a → suntecCall = .ok b →
      erpSyncAll logicMateCall suntecCall now
        = .ok { success := true, timestamp := now,
                data := { logicMate := a, suntec := b,
                          syncTimestamp := now } }) := by
  constructor
  · intro hfail
    unfold erpSyncAll syncAllSystems promiseAll2
    rcases hfail with ⟨e, he⟩ | ⟨e, he⟩
    · rw [he]
    · rw [he]
      cases logicMateCall <;> rfl
  · intro a b ha hb
    unfold erpSyncAll syncAllSystems promiseAll2
    rw [ha, hb]

/-- C2 (amended) witness: one failing adapter at a concrete input fails
the whole sync; two succeeding adapters (with their concrete mock
payloads) merge under per-adapter keys. -/
theorem claim_syncAll_whole_failure_witness :
    (erpSyncAll (Except.error "timeout" : Except String LMOrdersPayload)
        (Except.ok mockFactoryStatus : Except String FactoryStatus) 7
      = .error (.trpc .INTERNAL_SERVER_ERROR "ERP sync failed")) ∧
    (erpSyncAll (Except.ok mockLogicMateOrders)
        (Except.ok mockFactoryStatus) 7
      = .ok { success := true, timestamp := 7,
              data := { logicMate := mockLogicMateOrders,
                        suntec := mockFactoryStatus,
                        syncTimestamp := 7 } }) := by
  exact ⟨(claim_syncAll_whole_failure (Except.error "timeout" :
        Except String LMOrdersPayload) (Except.ok mockFactoryStatus) 7).1
      (Or.inl ⟨"timeout", rfl⟩),
    (claim_syncAll_whole_failure (Except.ok mockLogicMateOrders)
        (Except.ok mockFactoryStatus) 7).2 mockLogicMateOrders
      mockFactoryStatus rfl rfl⟩

end OLMS
